import Mathlib

/-!
Verification of the resource-fetching subsystem of src/src/util/ajax.js:
the image request queue (getImage, advanceImageRequestQueue,
resetImageRequestQueue), the transport selection of makeRequest, the
outcome classification of makeFetchRequest and makeXMLHttpRequest, and
the message augmentation of the AJAXError constructor.

The queue is embedded as a state machine.  Requests are identified by
natural numbers; each submission has a distinct identifier.  The state
carries the two module-level variables of the source (numImageRequests
and imageQueue) plus observables that record what the closures of the
source would observe: the per-request advanced flag, the order in which
requests were handed to the transport, the order of completion-callback
invocations, and counters for the decrement site and for entries into
the drain loop.  numImageRequests is an Int because the source decrements
a plain number and then asserts it is nonnegative; the embedding must be
able to represent the value the assertion inspects.
-/

namespace MapboxAjax

set_option maxRecDepth 16384

/-- MAX_PARALLEL_IMAGE_REQUESTS from the configuration object
(src/unnamed/part_000, line 25). -/
def MAX_PARALLEL_IMAGE_REQUESTS : Nat := 16

/-- The queue state.  max is config.MAX_PARALLEL_IMAGE_REQUESTS; num is
numImageRequests; queue is imageQueue, each entry the pair of a request
identifier and its cancelled flag; active maps each request already handed
to the transport to the advanced flag of its advanceImageRequestQueue
closure; dispatchOrder lists requests in the order they were handed to the
transport; callbacks lists completion-callback invocations in order;
decrements counts executions of the statement numImageRequests--, and
drainPasses counts entries into the drain (the code after the advanced
guard); assertFailed records whether assert(numImageRequests >= 0) ever
observed a negative value. -/
structure QState where
  max : Nat
  num : Int
  queue : List (Nat × Bool)
  active : List (Nat × Bool)
  dispatchOrder : List Nat
  callbacks : List Nat
  decrements : Nat
  drainPasses : Nat
  assertFailed : Bool
deriving DecidableEq, Repr

/-- The state after resetImageRequestQueue() (ajax.js lines 205-208),
which is also the initial state (line 209): imageQueue = [] and
numImageRequests = 0.  Closures of requests already in flight are
untouched, so every observer field is preserved. -/
def resetImageRequestQueue (s : QState) : QState :=
  { s with queue := [], num := 0 }

/-- The initial state: the module initializes by calling
resetImageRequestQueue (line 209), with no request ever submitted. -/
def initState (m : Nat) : QState :=
  { max := m, num := 0, queue := [], active := [], dispatchOrder := [],
    callbacks := [], decrements := 0, drainPasses := 0, assertFailed := false }

/-- getImage (ajax.js lines 211-223): if numImageRequests has reached
config.MAX_PARALLEL_IMAGE_REQUESTS, push an entry with cancelled = false
onto imageQueue and return it as the handle; otherwise increment
numImageRequests and hand the request to the transport (getArrayBuffer),
which we record by appending to active (with the advanced flag of the new
closure set to false) and to dispatchOrder. -/
def getImage (s : QState) (id : Nat) : QState :=
  if (s.max : Int) ≤ s.num then
    { s with queue := s.queue ++ [(id, false)] }
  else
    { s with num := s.num + 1,
             active := s.active ++ [(id, false)],
             dispatchOrder := s.dispatchOrder ++ [id] }

/-- The while loop of advanceImageRequestQueue (ajax.js lines 231-237):
while imageQueue is nonempty and numImageRequests is below the ceiling,
shift the head entry; a cancelled entry is discarded, otherwise the entry
is dispatched through getImage (line 235).  Each iteration removes exactly
one entry from the queue and dispatching never appends to it (the guard
numImageRequests < MAX forces the dispatch branch of getImage), so fuel
equal to the queue length at entry makes the fueled recursion coincide
with the source loop. -/
def advanceLoop : Nat → QState → QState
  | 0, s => s
  | fuel + 1, s =>
    match s.queue with
    | [] => s
    | (id, cancelled) :: rest =>
      if s.num < (s.max : Int) then
        if cancelled then advanceLoop fuel { s with queue := rest }
        else advanceLoop fuel (getImage { s with queue := rest } id)
      else s

/-- Lookup of the advanced flag of the closure belonging to request id,
none when no such closure exists (the request was never dispatched). -/
def lookupActive (id : Nat) : List (Nat × Bool) → Option Bool
  | [] => none
  | e :: rest => if e.1 = id then some e.2 else lookupActive id rest

/-- Setting the advanced flag of the closure belonging to request id. -/
def markAdvanced (id : Nat) (l : List (Nat × Bool)) : List (Nat × Bool) :=
  l.map fun e => if e.1 = id then (e.1, true) else e

/-- advanceImageRequestQueue (ajax.js lines 226-238) for the request id it
was created for: return immediately when the advanced flag is already set
(line 227); otherwise set it, decrement numImageRequests, evaluate the
assertion numImageRequests >= 0 (line 230), and run the drain loop. -/
def advanceImageRequestQueue (s : QState) (id : Nat) : QState :=
  match lookupActive id s.active with
  | none => s
  | some true => s
  | some false =>
    advanceLoop s.queue.length
      { s with active := markAdvanced id s.active,
               num := s.num - 1,
               decrements := s.decrements + 1,
               drainPasses := s.drainPasses + 1,
               assertFailed := s.assertFailed || decide (s.num - 1 < 0) }

/-- Invoking cancel() on the handle returned for request id.  While the
entry is still queued the handle is the queued entry itself and cancel
sets its cancelled flag (line 218).  Once the entry has been dispatched,
cancel was rebound (line 235 for entries drained from the queue, lines
264-267 for immediate dispatches) to abort the transport and run
advanceImageRequestQueue; for an entry that was discarded as cancelled, or
an unknown id, nothing observable happens, which the advance branch also
yields because no closure with that id exists. -/
def cancelHandle (s : QState) (id : Nat) : QState :=
  if id ∈ s.queue.map Prod.fst then
    { s with queue := s.queue.map fun e => if e.1 = id then (e.1, true) else e }
  else
    advanceImageRequestQueue s id

/-- The externally triggerable events of the queue. -/
inductive Event where
  | submit (id : Nat)
  | complete (id : Nat)
  | cancel (id : Nat)
  | reset
deriving DecidableEq, Repr

/-- One event.  A completion of a dispatched request runs its
advanceImageRequestQueue and then invokes the completion callback
(ajax.js lines 242-261); a completion for a request that was never
dispatched has no closure to run. -/
def step (s : QState) : Event → QState
  | .submit id => getImage s id
  | .complete id =>
    match lookupActive id s.active with
    | none => s
    | some _ =>
      let t := advanceImageRequestQueue s id
      { t with callbacks := t.callbacks ++ [id] }
  | .cancel id => cancelHandle s id
  | .reset => resetImageRequestQueue s

/-- A sequence of events applied in order. -/
def run (s : QState) (events : List Event) : QState :=
  events.foldl step s

/-! Transport selection (makeRequest, ajax.js lines 164-179). -/

/-- The capabilities makeRequest probes in the hosting environment:
hasFetchAPI stands for window.fetch, window.Request and
window.AbortController all being present, workerWithActor for isWorker()
together with self.worker and self.worker.actor. -/
structure BrowserEnv where
  hasFetchAPI : Bool
  workerWithActor : Bool
deriving DecidableEq, Repr

/-- The transport a request is executed with; delegate carries the name of
the remote operation used across the worker link. -/
inductive ChosenTransport where
  | fetchRequest
  | delegate (operation : String)
  | xhrRequest
deriving DecidableEq, Repr

/-- makeRequest (ajax.js lines 164-179): unless the url matches the
regular expression anchored at file:, try the streaming transport, then
delegation to the coordinating context through the actor with the remote
operation getResource; everything else, including every file: url, falls
through to makeXMLHttpRequest. -/
def makeRequest (env : BrowserEnv) (url : String) : ChosenTransport :=
  if ¬ url.startsWith "file:" then
    if env.hasFetchAPI then .fetchRequest
    else if env.workerWithActor then .delegate "getResource"
    else .xhrRequest
  else .xhrRequest

/-- The transport-selection policy in the order the specification words
it: local-file scheme always buffered; otherwise streaming when available;
otherwise delegation via the named remote operation getResource from a
background context with a link; otherwise buffered. -/
def specTransportSelection (env : BrowserEnv) (url : String) : ChosenTransport :=
  if url.startsWith "file:" then .xhrRequest
  else if env.hasFetchAPI then .fetchRequest
  else if env.workerWithActor then .delegate "getResource"
  else .xhrRequest

/-! Outcome classification (makeFetchRequest lines 108-122 and the onload
handler of makeXMLHttpRequest lines 144-159). -/

/-- Result of classifying one transport outcome: ok when the completion
callback receives no error, ajaxError when it receives
new AJAXError(statusText, status, url). -/
inductive Classified where
  | ok
  | ajaxError (status : Nat) (url : String)
deriving DecidableEq, Repr

/-- The onload handler of makeXMLHttpRequest (lines 144-159): success
requires (200 <= status < 300 or status == 0) and a non-null response;
every other outcome produces AJAXError(statusText, status, url). -/
def xhrOnloadClassify (status : Nat) (responseNull : Bool) (url : String) : Classified :=
  if ((200 ≤ status ∧ status < 300) ∨ status = 0) ∧ responseNull = false then .ok
  else .ajaxError status url

/-- Response.ok as the Fetch standard defines it for the platform object
the source reads on line 109: status in [200, 300). -/
def responseOk (status : Nat) : Bool :=
  decide (200 ≤ status ∧ status < 300)

/-- The resolved branch of makeFetchRequest (lines 108-115): response.ok
selects the success path, anything else produces
AJAXError(response.statusText, response.status, url). -/
def fetchClassify (status : Nat) (url : String) : Classified :=
  if responseOk status then .ok else .ajaxError status url

/-! The complete promise chain of makeFetchRequest (lines 108-122),
including the body-read step and the rejection handler. -/

/-- The asynchronous outcomes the promise chain of makeFetchRequest can
observe.  bodyRejected is a response with response.ok whose body-read
promise (response.text / json / arrayBuffer, line 110) rejected with a
DOMException of the given numeric code; rejected is the outer fetch
promise rejecting with such a code.  Aborting through the handle rejects
the pending stage with the AbortError code 20, the code line 117 tests. -/
inductive FetchOutcome where
  | bodyRead (body : String)
  | bodyRejected (errCode : Nat) (message : String)
  | notOk (status : Nat) (statusText : String)
  | rejected (errCode : Nat) (message : String)
deriving DecidableEq, Repr

/-- One completion-callback invocation of makeFetchRequest. -/
inductive CallbackCall where
  | succeeded (body : String)
  | failed (message : String)
  | failedStatus (status : Nat) (url : String)
deriving DecidableEq, Repr

/-- The callback invocations the handlers of makeFetchRequest perform for
one outcome.  The outer rejection handler (lines 116-122) silences code
20; the inner body-read rejection handler (line 112) invokes the callback
with new Error(err.message) without inspecting the code. -/
def fetchHandlerCalls (url : String) : FetchOutcome → List CallbackCall
  | .bodyRead body => [.succeeded body]
  | .bodyRejected _ message => [.failed message]
  | .notOk status _ => [.failedStatus status url]
  | .rejected errCode message =>
    if errCode = 20 then [] else [.failed message]

/-! The decode step of getImage (lines 248-259). -/

/-- Observable result of the image element wired up on lines 249-259:
either onload fires and the callback receives the image (built from the
fixed transparentPngUrl constant of line 200 or from an object URL over
the payload bytes), or onerror fires and the callback receives the decode
error of line 255. -/
inductive ImageOutcome where
  | loadedImage (fromPlaceholder : Bool)
  | decodeFailed
deriving DecidableEq, Repr

/-- Line 259: img.src = data.byteLength ? URL.createObjectURL(blob) :
transparentPngUrl.  A zero byte length is falsy, so the placeholder
constant is chosen. -/
def imageSrcIsPlaceholder (byteLength : Nat) : Bool :=
  byteLength = 0

/-- The decode outcome for a successful payload of the given length.  The
object-URL branch decodes the payload bytes and may fail (onerror);
the placeholder branch loads the fixed transparentPngUrl constant, a
valid PNG data url baked into the source at line 200, so onerror cannot
fire for it. -/
def imageDecodeOutcome (byteLength : Nat) (objectUrlDecodeOk : Bool) : ImageOutcome :=
  if imageSrcIsPlaceholder byteLength then .loadedImage true
  else if objectUrlDecodeOk then .loadedImage false
  else .decodeFailed

/-! The AJAXError constructor (ajax.js lines 53-72). -/

/-- The fixed guidance suffix of line 58. -/
def tokenGuidance : String :=
  ": you may have provided an invalid Mapbox access token. See https://www.mapbox.com/api-documentation/#access-tokens-and-token-scopes"

/-- The message computed by the AJAXError constructor (lines 56-59),
parameterized by the first-party-host predicate.  Modelled from the spec:
the predicate isMapboxHTTPURL is imported from src/util/mapbox, a module
that is not among the examined sources; the spec describes it only as the
recognized first-party API host pattern, so it is kept abstract here. -/
def ajaxErrorMessage (isMapboxHTTPURL : String → Bool) (message : String)
    (status : Nat) (url : String) : String :=
  if status = 401 ∧ isMapboxHTTPURL url then message ++ tokenGuidance
  else message

/-! Theorems.  First, preservation lemmas about the state machine. -/

theorem getImage_fields (s : QState) (id : Nat) :
    (getImage s id).max = s.max ∧ (getImage s id).decrements = s.decrements ∧
    (getImage s id).drainPasses = s.drainPasses ∧ (getImage s id).callbacks = s.callbacks := by
  unfold getImage
  split <;> exact ⟨rfl, rfl, rfl, rfl⟩

theorem advanceLoop_fields (fuel : Nat) : ∀ s : QState,
    (advanceLoop fuel s).max = s.max ∧
    (advanceLoop fuel s).decrements = s.decrements ∧
    (advanceLoop fuel s).drainPasses = s.drainPasses ∧
    (advanceLoop fuel s).callbacks = s.callbacks := by
  induction fuel with
  | zero => intro s; exact ⟨rfl, rfl, rfl, rfl⟩
  | succ n ih =>
    intro s
    simp only [advanceLoop]
    split
    · exact ⟨rfl, rfl, rfl, rfl⟩
    · split
      · split
        · exact ih _
        · obtain ⟨h1, h2, h3, h4⟩ := ih (getImage _ _)
          obtain ⟨g1, g2, g3, g4⟩ := getImage_fields _ _
          exact ⟨h1.trans g1, h2.trans g2, h3.trans g3, h4.trans g4⟩
      · exact ⟨rfl, rfl, rfl, rfl⟩

theorem getImage_num_le (s : QState) (id : Nat) (h : s.num ≤ (s.max : Int)) :
    (getImage s id).num ≤ ((getImage s id).max : Int) := by
  unfold getImage
  split
  · exact h
  · rename_i hc
    show s.num + 1 ≤ (s.max : Int)
    omega

theorem advanceLoop_num_le (fuel : Nat) : ∀ s : QState, s.num ≤ (s.max : Int) →
    (advanceLoop fuel s).num ≤ ((advanceLoop fuel s).max : Int) := by
  induction fuel with
  | zero => intro s h; exact h
  | succ n ih =>
    intro s h
    simp only [advanceLoop]
    split
    · exact h
    · split
      · split
        · exact ih _ h
        · exact ih _ (getImage_num_le _ _ h)
      · exact h

theorem advance_num_le (s : QState) (id : Nat) (h : s.num ≤ (s.max : Int)) :
    (advanceImageRequestQueue s id).num ≤ ((advanceImageRequestQueue s id).max : Int) := by
  unfold advanceImageRequestQueue
  split
  · exact h
  · exact h
  · refine advanceLoop_num_le _ _ ?_
    show s.num - 1 ≤ (s.max : Int)
    omega

theorem cancelHandle_num_le (s : QState) (id : Nat) (h : s.num ≤ (s.max : Int)) :
    (cancelHandle s id).num ≤ ((cancelHandle s id).max : Int) := by
  unfold cancelHandle
  split
  · exact h
  · exact advance_num_le s id h

/-- Each event preserves the ceiling invariant numImageRequests less than
or equal to MAX_PARALLEL_IMAGE_REQUESTS. -/
theorem step_num_le (s : QState) (e : Event) (h : s.num ≤ (s.max : Int)) :
    (step s e).num ≤ ((step s e).max : Int) := by
  cases e with
  | submit id => exact getImage_num_le s id h
  | complete id =>
    simp only [step]
    split
    · exact h
    · exact advance_num_le s id h
  | cancel id => exact cancelHandle_num_le s id h
  | reset =>
    show (0 : Int) ≤ (s.max : Int)
    exact Int.natCast_nonneg _

theorem run_num_le (events : List Event) : ∀ s : QState, s.num ≤ (s.max : Int) →
    (run s events).num ≤ ((run s events).max : Int) := by
  induction events with
  | nil => intro s h; exact h
  | cons e rest ih => intro s h; exact ih _ (step_num_le s e h)

theorem advance_max (s : QState) (id : Nat) :
    (advanceImageRequestQueue s id).max = s.max := by
  unfold advanceImageRequestQueue
  split
  · rfl
  · rfl
  · exact (advanceLoop_fields _ _).1

theorem step_max (s : QState) (e : Event) : (step s e).max = s.max := by
  cases e with
  | submit id => exact (getImage_fields s id).1
  | complete id =>
    simp only [step]
    split
    · rfl
    · exact advance_max s id
  | cancel id =>
    show (cancelHandle s id).max = s.max
    unfold cancelHandle
    split
    · rfl
    · exact advance_max s id
  | reset => rfl

theorem run_max (events : List Event) : ∀ s : QState, (run s events).max = s.max := by
  induction events with
  | nil => intro s; rfl
  | cons e rest ih => intro s; exact (ih _).trans (step_max s e)

theorem run_append (s : QState) (a b : List Event) :
    run s (a ++ b) = run (run s a) b := by
  simp [run, List.foldl_append]

/-- Submissions while every slot is free: all of them dispatch, in order,
and the pending queue stays empty. -/
theorem run_submits_all_dispatch (l : List Nat) : ∀ s : QState, s.queue = [] →
    s.num + l.length ≤ (s.max : Int) →
    (run s (l.map Event.submit)).num = s.num + l.length ∧
    (run s (l.map Event.submit)).queue = [] ∧
    (run s (l.map Event.submit)).dispatchOrder = s.dispatchOrder ++ l ∧
    (run s (l.map Event.submit)).max = s.max := by
  induction l with
  | nil =>
    intro s hq h
    exact ⟨by simp [run], hq, by simp [run], rfl⟩
  | cons i rest ih =>
    intro s hq h
    have hlen : ((i :: rest).length : Int) = (rest.length : Int) + 1 := by
      simp [List.length_cons]
    have hlt : s.num < (s.max : Int) := by
      rw [hlen] at h
      have hn : (0 : Int) ≤ (rest.length : Int) := Int.natCast_nonneg _
      omega
    have hgetter : getImage s i = { s with
        num := s.num + 1,
        active := s.active ++ [(i, false)],
        dispatchOrder := s.dispatchOrder ++ [i] } := by
      unfold getImage
      split
      · rename_i hc
        omega
      · rfl
    have hrun : run s ((i :: rest).map Event.submit)
        = run (getImage s i) (rest.map Event.submit) := rfl
    rw [hrun, hgetter]
    obtain ⟨h1, h2, h3, h4⟩ := ih { s with
        num := s.num + 1,
        active := s.active ++ [(i, false)],
        dispatchOrder := s.dispatchOrder ++ [i] } hq
      (by show s.num + 1 + (rest.length : Int) ≤ (s.max : Int); rw [hlen] at h; omega)
    refine ⟨?_, h2, ?_, h4⟩
    · rw [h1, hlen]
      show s.num + 1 + (rest.length : Int) = s.num + ((rest.length : Int) + 1)
      ring
    · rw [h3]
      simp

/-- Submissions while the ceiling is saturated: all of them enqueue at the
tail, in order, and nothing dispatches. -/
theorem run_submits_all_enqueue (l : List Nat) : ∀ s : QState, (s.max : Int) ≤ s.num →
    (run s (l.map Event.submit)).num = s.num ∧
    (run s (l.map Event.submit)).queue = s.queue ++ l.map (fun i => (i, false)) ∧
    (run s (l.map Event.submit)).dispatchOrder = s.dispatchOrder ∧
    (run s (l.map Event.submit)).max = s.max := by
  induction l with
  | nil => intro s h; exact ⟨rfl, by simp [run], rfl, rfl⟩
  | cons i rest ih =>
    intro s h
    have hgi : getImage s i = { s with queue := s.queue ++ [(i, false)] } := by
      unfold getImage
      rw [if_pos h]
    have hrun : run s ((i :: rest).map Event.submit)
        = run (getImage s i) (rest.map Event.submit) := rfl
    rw [hrun, hgi]
    obtain ⟨h1, h2, h3, h4⟩ := ih { s with queue := s.queue ++ [(i, false)] } h
    refine ⟨h1, ?_, h3, h4⟩
    rw [h2]
    simp

/-- C1: over every event sequence the active count never exceeds the
configured ceiling, and submitting more requests than the ceiling from the
initial state dispatches exactly the first ceiling-many of them, in
submission order, while the rest are appended to the pending queue in
submission order with their cancelled flags clear. -/
theorem active_count_ceiling (m : Nat) (events : List Event) (l : List Nat)
    (h : m < l.length) :
    (run (initState m) events).num ≤ (m : Int) ∧
    (run (initState m) (l.map Event.submit)).dispatchOrder = l.take m ∧
    (run (initState m) (l.map Event.submit)).queue
      = (l.drop m).map (fun i => (i, false)) ∧
    (run (initState m) (l.map Event.submit)).num = (m : Int) := by
  have htake : ((l.take m).length : Int) = (m : Int) := by
    rw [List.length_take]
    congr 1
    omega
  have hbound : (initState m).num + ((l.take m).length : Int) ≤ ((initState m).max : Int) := by
    show (0 : Int) + ((l.take m).length : Int) ≤ (m : Int)
    rw [htake]
    omega
  obtain ⟨a1, a2, a3, a4⟩ := run_submits_all_dispatch (l.take m) (initState m) rfl hbound
  have hsat : ((run (initState m) ((l.take m).map Event.submit)).max : Int)
      ≤ (run (initState m) ((l.take m).map Event.submit)).num := by
    rw [a1, a4, htake]
    show (m : Int) ≤ (0 : Int) + (m : Int)
    omega
  obtain ⟨b1, b2, b3, b4⟩ :=
    run_submits_all_enqueue (l.drop m) (run (initState m) ((l.take m).map Event.submit)) hsat
  have hsplit : l.map Event.submit
      = (l.take m).map Event.submit ++ (l.drop m).map Event.submit := by
    rw [← List.map_append, List.take_append_drop]
  refine ⟨?_, ?_, ?_, ?_⟩
  · have hinv := run_num_le events (initState m) (by
      show (0 : Int) ≤ (m : Int)
      omega)
    rwa [run_max events (initState m)] at hinv
  · rw [hsplit, run_append, b3, a3]
    simp [initState]
  · rw [hsplit, run_append, b2, a2]
    simp
  · rw [hsplit, run_append, b1, a1, htake]
    show (0 : Int) + (m : Int) = (m : Int)
    omega

/-- C1 witness: seventeen submissions against the default ceiling of 16
dispatch the first sixteen and enqueue the seventeenth. -/
theorem active_count_ceiling_witness :
    MAX_PARALLEL_IMAGE_REQUESTS < (List.range 17).length ∧
    ((run (initState MAX_PARALLEL_IMAGE_REQUESTS) []).num
        ≤ (MAX_PARALLEL_IMAGE_REQUESTS : Int) ∧
      (run (initState MAX_PARALLEL_IMAGE_REQUESTS)
          ((List.range 17).map Event.submit)).dispatchOrder
        = (List.range 17).take MAX_PARALLEL_IMAGE_REQUESTS ∧
      (run (initState MAX_PARALLEL_IMAGE_REQUESTS)
          ((List.range 17).map Event.submit)).queue
        = ((List.range 17).drop MAX_PARALLEL_IMAGE_REQUESTS).map (fun i => (i, false)) ∧
      (run (initState MAX_PARALLEL_IMAGE_REQUESTS)
          ((List.range 17).map Event.submit)).num
        = (MAX_PARALLEL_IMAGE_REQUESTS : Int)) :=
  ⟨by decide,
   active_count_ceiling MAX_PARALLEL_IMAGE_REQUESTS [] (List.range 17) (by decide)⟩

/-! Lemmas for the cancellation claims. -/

theorem lookupActive_append_left (id : Nat) (b : Bool) :
    ∀ l₁ l₂ : List (Nat × Bool),
    lookupActive id l₁ = some b → lookupActive id (l₁ ++ l₂) = some b := by
  intro l₁
  induction l₁ with
  | nil =>
    intro l₂ h
    simp [lookupActive] at h
  | cons e rest ih =>
    intro l₂ h
    by_cases he : e.1 = id
    · simp only [lookupActive, he, if_pos] at h ⊢
      · exact h
    · simp only [lookupActive, he, if_false, ite_false] at h ⊢
      · exact ih _ h

theorem lookupActive_markAdvanced (id : Nat) :
    ∀ l : List (Nat × Bool), ∀ b : Bool,
    lookupActive id l = some b → lookupActive id (markAdvanced id l) = some true := by
  intro l
  induction l with
  | nil =>
    intro b h
    simp [lookupActive] at h
  | cons e rest ih =>
    intro b h
    by_cases he : e.1 = id
    · simp [markAdvanced, lookupActive, he]
    · simp only [markAdvanced, List.map_cons, lookupActive, he, if_false, ite_false] at h ⊢
      exact ih _ h

/-- The drain loop never touches the closure of a request that is not in
the pending queue: its advanced flag stays set and its identifier stays
out of the queue. -/
theorem advanceLoop_cancel_inv (id : Nat) (fuel : Nat) : ∀ s : QState,
    lookupActive id s.active = some true → id ∉ s.queue.map Prod.fst →
    lookupActive id (advanceLoop fuel s).active = some true ∧
    id ∉ (advanceLoop fuel s).queue.map Prod.fst := by
  induction fuel with
  | zero => intro s h1 h2; exact ⟨h1, h2⟩
  | succ n ih =>
    intro s h1 h2
    rcases hq : s.queue with _ | ⟨⟨qid, qc⟩, rest⟩
    · have hid : advanceLoop (n + 1) s = s := by
        simp [advanceLoop, hq]
      rw [hid]
      exact ⟨h1, h2⟩
    · have hrest : id ∉ rest.map Prod.fst ∧ id ≠ qid := by
        rw [hq] at h2
        simp only [List.map_cons, List.mem_cons, not_or] at h2
        exact ⟨h2.2, h2.1⟩
      by_cases hnum : s.num < (s.max : Int)
      · cases qc with
        | true =>
          have hstep : advanceLoop (n + 1) s = advanceLoop n { s with queue := rest } := by
            simp [advanceLoop, hq, hnum]
          rw [hstep]
          exact ih _ h1 hrest.1
        | false =>
          have hgi : getImage { s with queue := rest } qid = { s with
              queue := rest,
              num := s.num + 1,
              active := s.active ++ [(qid, false)],
              dispatchOrder := s.dispatchOrder ++ [qid] } := by
            unfold getImage
            split
            · rename_i hc
              have hc2 : (s.max : Int) ≤ s.num := hc
              omega
            · rfl
          have hstep : advanceLoop (n + 1) s
              = advanceLoop n (getImage { s with queue := rest } qid) := by
            simp [advanceLoop, hq, hnum]
          rw [hstep, hgi]
          refine ih _ ?_ hrest.1
          exact lookupActive_append_left id true s.active [(qid, false)] h1
      · have hid : advanceLoop (n + 1) s = s := by
          simp [advanceLoop, hq, hnum]
        rw [hid]
        exact ⟨h1, h2⟩

/-- Invoking cancel() on an active, not yet advanced request runs the
decrement and the drain exactly once, leaves the advanced flag set, and
keeps the identifier out of the pending queue. -/
theorem cancel_active_spec (s : QState) (id : Nat)
    (h1 : lookupActive id s.active = some false)
    (h2 : id ∉ s.queue.map Prod.fst) :
    (step s (.cancel id)).decrements = s.decrements + 1 ∧
    (step s (.cancel id)).drainPasses = s.drainPasses + 1 ∧
    lookupActive id (step s (.cancel id)).active = some true ∧
    id ∉ (step s (.cancel id)).queue.map Prod.fst ∧
    (step s (.cancel id)).callbacks = s.callbacks := by
  have hch : step s (.cancel id) = advanceImageRequestQueue s id := by
    show cancelHandle s id = _
    unfold cancelHandle
    rw [if_neg h2]
  have hadv : advanceImageRequestQueue s id
      = advanceLoop s.queue.length { s with
          active := markAdvanced id s.active,
          num := s.num - 1,
          decrements := s.decrements + 1,
          drainPasses := s.drainPasses + 1,
          assertFailed := s.assertFailed || decide (s.num - 1 < 0) } := by
    unfold advanceImageRequestQueue
    rw [h1]
  rw [hch, hadv]
  obtain ⟨f1, f2, f3, f4⟩ := advanceLoop_fields s.queue.length { s with
      active := markAdvanced id s.active,
      num := s.num - 1,
      decrements := s.decrements + 1,
      drainPasses := s.drainPasses + 1,
      assertFailed := s.assertFailed || decide (s.num - 1 < 0) }
  obtain ⟨i1, i2⟩ := advanceLoop_cancel_inv id s.queue.length { s with
      active := markAdvanced id s.active,
      num := s.num - 1,
      decrements := s.decrements + 1,
      drainPasses := s.drainPasses + 1,
      assertFailed := s.assertFailed || decide (s.num - 1 < 0) }
    (lookupActive_markAdvanced id s.active false h1) h2
  exact ⟨f2, f3, i1, i2, f4⟩

/-- C3: cancelling an active request any positive number of times runs the
decrement and the drain exactly once; further cancels are the identity and
a later completion of the same request changes neither the active count
nor the decrement or drain counters. -/
theorem cancel_active_once (s : QState) (id : Nat) (n : Nat)
    (h1 : lookupActive id s.active = some false)
    (h2 : id ∉ s.queue.map Prod.fst) :
    ((fun u => step u (.cancel id))^[n + 1] s).decrements = s.decrements + 1 ∧
    ((fun u => step u (.cancel id))^[n + 1] s).drainPasses = s.drainPasses + 1 ∧
    ((fun u => step u (.cancel id))^[n + 1] s).num = (step s (.cancel id)).num ∧
    (step ((fun u => step u (.cancel id))^[n + 1] s) (.complete id)).num
      = (step s (.cancel id)).num ∧
    (step ((fun u => step u (.cancel id))^[n + 1] s) (.complete id)).decrements
      = s.decrements + 1 ∧
    (step ((fun u => step u (.cancel id))^[n + 1] s) (.complete id)).drainPasses
      = s.drainPasses + 1 := by
  obtain ⟨d1, d2, d3, d4, d5⟩ := cancel_active_spec s id h1 h2
  have hfix : step (step s (.cancel id)) (.cancel id) = step s (.cancel id) := by
    show cancelHandle (step s (.cancel id)) id = _
    unfold cancelHandle
    rw [if_neg d4]
    unfold advanceImageRequestQueue
    rw [d3]
  have hiter : (fun u => step u (.cancel id))^[n + 1] s = step s (.cancel id) := by
    rw [Function.iterate_succ_apply]
    exact Function.iterate_fixed hfix n
  have hadv2 : advanceImageRequestQueue (step s (.cancel id)) id = step s (.cancel id) := by
    unfold advanceImageRequestQueue
    rw [d3]
  have d3' : lookupActive id (cancelHandle s id).active = some true := d3
  have hadv2' : advanceImageRequestQueue (cancelHandle s id) id = cancelHandle s id := hadv2
  have hstep_complete : step (step s (.cancel id)) (.complete id)
      = { step s (.cancel id) with
          callbacks := (step s (.cancel id)).callbacks ++ [id] } := by
    simp only [step]
    rw [d3', hadv2']
  rw [hiter, hstep_complete]
  exact ⟨d1, d2, rfl, rfl, d1, d2⟩

/-- C3 witness: with ceiling 2 and request 1 active, three consecutive
cancels decrement and drain once, and a subsequent completion leaves the
counters and the active count alone. -/
theorem cancel_active_once_witness :
    (lookupActive 1 (run (initState 2) [.submit 1]).active = some false ∧
      (1 : Nat) ∉ (run (initState 2) [.submit 1]).queue.map Prod.fst) ∧
    (((fun u => step u (.cancel 1))^[2 + 1] (run (initState 2) [.submit 1])).decrements
        = (run (initState 2) [.submit 1]).decrements + 1 ∧
      ((fun u => step u (.cancel 1))^[2 + 1] (run (initState 2) [.submit 1])).drainPasses
        = (run (initState 2) [.submit 1]).drainPasses + 1 ∧
      ((fun u => step u (.cancel 1))^[2 + 1] (run (initState 2) [.submit 1])).num
        = (step (run (initState 2) [.submit 1]) (.cancel 1)).num ∧
      (step ((fun u => step u (.cancel 1))^[2 + 1] (run (initState 2) [.submit 1]))
          (.complete 1)).num = (step (run (initState 2) [.submit 1]) (.cancel 1)).num ∧
      (step ((fun u => step u (.cancel 1))^[2 + 1] (run (initState 2) [.submit 1]))
          (.complete 1)).decrements = (run (initState 2) [.submit 1]).decrements + 1 ∧
      (step ((fun u => step u (.cancel 1))^[2 + 1] (run (initState 2) [.submit 1]))
          (.complete 1)).drainPasses = (run (initState 2) [.submit 1]).drainPasses + 1) :=
  ⟨⟨by decide, by decide⟩,
   cancel_active_once (run (initState 2) [.submit 1]) 1 2 (by decide) (by decide)⟩

theorem map_noflag (id : Nat) : ∀ q : List (Nat × Bool), id ∉ q.map Prod.fst →
    (q.map fun e => if e.1 = id then (e.1, true) else e) = q := by
  intro q
  induction q with
  | nil => intro h; rfl
  | cons e rest ih =>
    intro h
    simp only [List.map_cons, List.mem_cons, not_or] at h
    have hne : e.1 ≠ id := fun hc => h.1 hc.symm
    simp only [List.map_cons, if_neg hne]
    rw [ih h.2]

theorem map_flag_eq (id : Nat) (c : Bool) (q1 q2 : List (Nat × Bool))
    (hid : id ∉ (q1 ++ q2).map Prod.fst) :
    ((q1 ++ (id, c) :: q2).map fun e => if e.1 = id then (e.1, true) else e)
      = q1 ++ (id, true) :: q2 := by
  simp only [List.map_append, List.mem_append, not_or] at hid
  rw [List.map_append, List.map_cons]
  rw [map_noflag id q1 hid.1, map_noflag id q2 hid.2]
  simp

/-- C4 amended: while the entry is still queued, cancel() on its handle
sets the cancelled flag on that entry — touching nothing else of the
state — is idempotent, and has no effect at all when the entry was already
cancelled. -/
theorem queued_cancel_flag (s : QState) (id : Nat) (q1 q2 : List (Nat × Bool)) (c : Bool)
    (hq : s.queue = q1 ++ (id, c) :: q2)
    (hid : id ∉ (q1 ++ q2).map Prod.fst) :
    (step s (.cancel id)).queue = q1 ++ (id, true) :: q2 ∧
    (step s (.cancel id)).num = s.num ∧
    (step s (.cancel id)).active = s.active ∧
    (step s (.cancel id)).dispatchOrder = s.dispatchOrder ∧
    (step s (.cancel id)).callbacks = s.callbacks ∧
    step (step s (.cancel id)) (.cancel id) = step s (.cancel id) ∧
    (c = true → step s (.cancel id) = s) := by
  have hmem : id ∈ s.queue.map Prod.fst := by
    rw [hq]
    simp
  have hflag : step s (.cancel id) = { s with queue := q1 ++ (id, true) :: q2 } := by
    show cancelHandle s id = _
    unfold cancelHandle
    rw [if_pos hmem, hq, map_flag_eq id c q1 q2 hid]
  have hmem2 : id ∈ ({ s with queue := q1 ++ (id, true) :: q2 } : QState).queue.map Prod.fst := by
    simp
  refine ⟨by rw [hflag], by rw [hflag], by rw [hflag], by rw [hflag], by rw [hflag], ?_, ?_⟩
  · rw [hflag]
    show cancelHandle { s with queue := q1 ++ (id, true) :: q2 } id = _
    unfold cancelHandle
    rw [if_pos hmem2]
    rw [show ({ s with queue := q1 ++ (id, true) :: q2 } : QState).queue
        = q1 ++ (id, true) :: q2 from rfl]
    rw [map_flag_eq id true q1 q2 hid]
  · intro hc
    subst hc
    rw [hflag, ← hq]

/-- C4 witness: with ceiling 1 the second request is queued; one cancel
flags it, a second cancel changes nothing, and the rest of the state is
untouched. -/
theorem queued_cancel_flag_witness :
    ((run (initState 1) [.submit 1, .submit 2]).queue = [] ++ (2, false) :: [] ∧
      (2 : Nat) ∉ (([] ++ [] : List (Nat × Bool)).map Prod.fst)) ∧
    ((step (run (initState 1) [.submit 1, .submit 2]) (.cancel 2)).queue
        = [] ++ (2, true) :: [] ∧
      (step (run (initState 1) [.submit 1, .submit 2]) (.cancel 2)).num
        = (run (initState 1) [.submit 1, .submit 2]).num ∧
      (step (run (initState 1) [.submit 1, .submit 2]) (.cancel 2)).active
        = (run (initState 1) [.submit 1, .submit 2]).active ∧
      (step (run (initState 1) [.submit 1, .submit 2]) (.cancel 2)).dispatchOrder
        = (run (initState 1) [.submit 1, .submit 2]).dispatchOrder ∧
      (step (run (initState 1) [.submit 1, .submit 2]) (.cancel 2)).callbacks
        = (run (initState 1) [.submit 1, .submit 2]).callbacks ∧
      step (step (run (initState 1) [.submit 1, .submit 2]) (.cancel 2)) (.cancel 2)
        = step (run (initState 1) [.submit 1, .submit 2]) (.cancel 2) ∧
      (false = true → step (run (initState 1) [.submit 1, .submit 2]) (.cancel 2)
        = run (initState 1) [.submit 1, .submit 2])) :=
  ⟨⟨by decide, by decide⟩,
   queued_cancel_flag (run (initState 1) [.submit 1, .submit 2]) 2 [] [] false
     (by decide) (by decide)⟩

/-- C2: with ceiling 2, submitting R1..R5 dispatches R1 and R2 immediately
and queues R3, R4, R5; completing R1 dispatches R3; after cancelling R4
while it is still queued, completing R2 dispatches R5 and skips R4; the
completion callbacks of R1, R2, R3 and R5 each run exactly once and R4s
callback never runs. -/
theorem scenario_ceiling_two :
    (run (initState 2) [.submit 1, .submit 2, .submit 3, .submit 4, .submit 5]).dispatchOrder
      = [1, 2] ∧
    (run (initState 2) [.submit 1, .submit 2, .submit 3, .submit 4, .submit 5]).queue
      = [(3, false), (4, false), (5, false)] ∧
    (run (initState 2) [.submit 1, .submit 2, .submit 3, .submit 4, .submit 5,
      .complete 1]).dispatchOrder = [1, 2, 3] ∧
    (run (initState 2) [.submit 1, .submit 2, .submit 3, .submit 4, .submit 5,
      .complete 1, .cancel 4]).queue = [(4, true), (5, false)] ∧
    (run (initState 2) [.submit 1, .submit 2, .submit 3, .submit 4, .submit 5,
      .complete 1, .cancel 4, .complete 2]).dispatchOrder = [1, 2, 3, 5] ∧
    (run (initState 2) [.submit 1, .submit 2, .submit 3, .submit 4, .submit 5,
      .complete 1, .cancel 4, .complete 2, .complete 3, .complete 5]).callbacks
      = [1, 2, 3, 5] ∧
    (run (initState 2) [.submit 1, .submit 2, .submit 3, .submit 4, .submit 5,
      .complete 1, .cancel 4, .complete 2, .complete 3, .complete 5]).callbacks.count 4
      = 0 := by
  decide

/-- C10 divergence: a request dispatched before resetImageRequestQueue and
completing after it drives numImageRequests to minus one, so the assertion
numImageRequests >= 0 at the start of the drain pass fails. -/
theorem reset_during_flight_breaks_assert :
    (run (initState 16) [.submit 1, .reset, .complete 1]).num = -1 ∧
    (run (initState 16) [.submit 1, .reset, .complete 1]).assertFailed = true := by
  decide

/-- C4 counterexample: with ceiling 1, R2 is queued behind R1 and is
dispatched from the queue when R1 completes; invoking cancel() on R2s
handle afterwards is not a no-op — it decrements the active count from 1
to 0, because the handle was rebound to the live requests cancel at
dispatch (ajax.js line 235). -/
theorem cancel_after_dispatch_has_effect :
    (run (initState 1) [.submit 1, .submit 2]).queue = [(2, false)] ∧
    (run (initState 1) [.submit 1, .submit 2, .complete 1]).queue = [] ∧
    (run (initState 1) [.submit 1, .submit 2, .complete 1]).dispatchOrder = [1, 2] ∧
    (run (initState 1) [.submit 1, .submit 2, .complete 1]).num = 1 ∧
    (step (run (initState 1) [.submit 1, .submit 2, .complete 1]) (.cancel 2)).num = 0 := by
  decide

/-- C5 counterexample: an outcome with response status 0 is a success
under the buffered transport (onload, non-null response) but an
HTTPStatusError under the streaming transport, because Response.ok is
false at status 0; the classification therefore differs between
transports, and status 0 is not uniformly a success. -/
theorem status_zero_classification_differs :
    xhrOnloadClassify 0 false "https://example.com/a.png" = .ok ∧
    fetchClassify 0 "https://example.com/a.png" = .ajaxError 0 "https://example.com/a.png" := by
  refine ⟨rfl, rfl⟩

/-- C5 amended: under the buffered transport status 0 or [200,300) with a
non-null response is success and everything else is HTTPStatusError with
that status and url; under the streaming transport status [200,300) is
success and everything else — including 0 — is HTTPStatusError with that
status and url; the transports agree on every status outside 0 given a
non-null response. -/
theorem transport_classification (status : Nat) (url : String) :
    (200 ≤ status ∧ status < 300 →
      xhrOnloadClassify status false url = .ok ∧ fetchClassify status url = .ok) ∧
    (¬(200 ≤ status ∧ status < 300) → status ≠ 0 →
      xhrOnloadClassify status false url = .ajaxError status url ∧
      fetchClassify status url = .ajaxError status url) ∧
    xhrOnloadClassify 0 false url = .ok ∧
    fetchClassify 0 url = .ajaxError 0 url ∧
    xhrOnloadClassify status true url = .ajaxError status url := by
  refine ⟨?_, ?_, rfl, rfl, ?_⟩
  · intro h
    constructor
    · simp [xhrOnloadClassify, h]
    · simp [fetchClassify, responseOk, h]
  · intro h h0
    constructor
    · simp [xhrOnloadClassify, h, h0]
    · simp [fetchClassify, responseOk, h]
  · simp [xhrOnloadClassify]

/-- C5 witness: the amended classification evaluated at statuses 204 and
404, discharging the hypotheses of both implications. -/
theorem transport_classification_witness :
    ((200 ≤ 204 ∧ 204 < 300) ∧
      xhrOnloadClassify 204 false "https://example.com/t" = .ok ∧
      fetchClassify 204 "https://example.com/t" = .ok) ∧
    (¬(200 ≤ 404 ∧ 404 < 300) ∧ 404 ≠ 0 ∧
      xhrOnloadClassify 404 false "https://example.com/t" = .ajaxError 404 "https://example.com/t" ∧
      fetchClassify 404 "https://example.com/t" = .ajaxError 404 "https://example.com/t") :=
  ⟨⟨by decide, (transport_classification 204 "https://example.com/t").1 (by decide)⟩,
   ⟨by decide, by decide,
    (transport_classification 404 "https://example.com/t").2.1 (by decide) (by decide)⟩⟩

/-- C6: makeRequest selects the transport exactly in the order the
specification states: local-file scheme always buffered, otherwise
streaming when available, otherwise delegation through the named remote
operation getResource from a worker with an actor, otherwise buffered. -/
theorem transport_selection_matches_spec (env : BrowserEnv) (url : String) :
    makeRequest env url = specTransportSelection env url := by
  cases h : url.startsWith "file:" <;>
    simp [makeRequest, specTransportSelection, h]

/-- C7 divergence: when cancel() aborts the streaming transport after the
response headers arrived but before the body was read, the body-read
promise rejects with the AbortError code 20 and the inner rejection
handler of makeFetchRequest (line 112) invokes the completion callback
with an error, although the outer handler (lines 116-122) silences the
same code; the callback is therefore invoked after cancellation. -/
theorem abort_during_body_read_invokes_callback :
    fetchHandlerCalls "https://example.com/image.png"
      (.bodyRejected 20 "The user aborted a request.")
      = [.failed "The user aborted a request."] ∧
    fetchHandlerCalls "https://example.com/image.png"
      (.rejected 20 "The user aborted a request.") = [] := by
  refine ⟨rfl, rfl⟩

/-- C8: a successful transport outcome with a zero-length byte payload
selects the reserved placeholder image (the transparentPngUrl constant)
as the image source, so the completion callback receives the placeholder
image and never the decode error, whatever the object-URL decode would
have done. -/
theorem zero_length_payload_placeholder (objectUrlDecodeOk : Bool) :
    imageSrcIsPlaceholder 0 = true ∧
    imageDecodeOutcome 0 objectUrlDecodeOk = .loadedImage true ∧
    imageDecodeOutcome 0 objectUrlDecodeOk ≠ .decodeFailed := by
  refine ⟨rfl, rfl, ?_⟩
  intro hc
  rw [show imageDecodeOutcome 0 objectUrlDecodeOk = .loadedImage true from rfl] at hc
  exact ImageOutcome.noConfusion hc

/-- C9: the AJAXError message carries the fixed guidance suffix exactly
when the status is 401 and the url is recognized as first-party; a 401
against an unrecognized host, or any other status, leaves the message
unchanged, and the augmented message always differs from the plain one. -/
theorem http401_first_party_guidance (isMapboxHTTPURL : String → Bool)
    (message : String) (status : Nat) (url : String) :
    (status = 401 ∧ isMapboxHTTPURL url = true →
      ajaxErrorMessage isMapboxHTTPURL message status url = message ++ tokenGuidance) ∧
    (status ≠ 401 ∨ isMapboxHTTPURL url = false →
      ajaxErrorMessage isMapboxHTTPURL message status url = message) ∧
    message ++ tokenGuidance ≠ message := by
  refine ⟨?_, ?_, ?_⟩
  · rintro ⟨h1, h2⟩
    simp [ajaxErrorMessage, h1, h2]
  · rintro (h | h) <;> simp [ajaxErrorMessage, h]
  · intro h
    have hlen := congrArg String.length h
    rw [String.length_append] at hlen
    have hpos : 0 < tokenGuidance.length := by decide
    omega

/-- C9 witness: a 401 against a recognized host gains the suffix, a 404
against the same host and a 401 against an unrecognized host do not. -/
theorem http401_first_party_guidance_witness :
    ajaxErrorMessage (fun u => u = "https://api.mapbox.com/v4/a.json") "Unauthorized" 401
      "https://api.mapbox.com/v4/a.json" = "Unauthorized" ++ tokenGuidance ∧
    ajaxErrorMessage (fun u => u = "https://api.mapbox.com/v4/a.json") "Not Found" 404
      "https://api.mapbox.com/v4/a.json" = "Not Found" ∧
    ajaxErrorMessage (fun u => u = "https://api.mapbox.com/v4/a.json") "Unauthorized" 401
      "https://example.com/a.json" = "Unauthorized" :=
  ⟨(http401_first_party_guidance _ _ 401 _).1 ⟨rfl, by decide⟩,
   (http401_first_party_guidance _ _ 404 _).2.1 (Or.inl (by decide)),
   (http401_first_party_guidance _ _ 401 _).2.1 (Or.inr (by decide))⟩

end MapboxAjax
